import Mathlib

/-!
Verification of the Strava→GPT coaching bot (`src/app.py`) against its
specification.  The Python source is shallowly embedded: Python numbers are
modelled as rationals, JSON objects as Lean structures whose fields are
`Option`-valued (`none` = key absent), nullable numeric JSON values by `PyNum`,
and every external call (HTTP, clock, timestamp parsing) is passed in as an
explicit argument so that each handler becomes a pure function.
-/

namespace GarminBot

/-- A numeric JSON field value as Python sees it: either `null` or a number
(ints and floats are both modelled as rationals). -/
inductive PyNum where
  | null : PyNum
  | num : ℚ → PyNum
deriving DecidableEq, Repr

/-- Embeds the idiom `activity.get(key, 0) or 0`: an absent key or a `null`
(or zero, which Python's `or` also replaces by the literal `0`) all yield `0`;
any other number is kept.  Value-wise this is just "absent/null ↦ 0". -/
def getNumOr0 : Option PyNum → ℚ
  | none => 0
  | some PyNum.null => 0
  | some (PyNum.num q) => q

/-- The subset of a Strava activity record that the pipeline reads:
`distance` (meters), `moving_time` (seconds), `total_elevation_gain` (meters),
the raw `start_date` string, and the `type` string. -/
structure Activity where
  distance : Option PyNum
  moving_time : Option PyNum
  total_elevation_gain : Option PyNum
  start_date : Option String
  type : Option String
deriving DecidableEq, Repr

/-- Embedding of `is_moving_activity` (src/app.py:193-214).
`dist = activity.get("distance", 0) or 0`, likewise `moving`; reject when
`dist <= 0 and moving <= 0`, reject when `moving < 60 and dist < 200`,
otherwise accept. -/
def is_moving_activity (activity : Activity) : Bool :=
  let dist := getNumOr0 activity.distance
  let moving := getNumOr0 activity.moving_time
  if dist ≤ 0 ∧ moving ≤ 0 then
    false
  else if moving < 60 ∧ dist < 200 then
    false
  else
    true

/-- Python's `int()` applied to a float/rational: truncation toward zero. -/
def ratTrunc (q : ℚ) : ℤ := Int.tdiv q.num (q.den : ℤ)

/-- Result of the weekly summary (src/app.py:185-190). -/
structure WeekSummary where
  workouts : ℕ
  duration_s : ℤ
  dist_m : ℤ
  elev_m : ℤ
deriving DecidableEq, Repr

/-- `timedelta(days=7)` in seconds. -/
def sevenDays : ℚ := 7 * 24 * 60 * 60

/-- The per-activity guard of the `summarize_week` loop (src/app.py:171-179):
read `x["start_date"]` (a `KeyError` on an absent key is caught by the
`except` and skips the activity), parse it (`.replace("Z", "+00:00")` +
`datetime.fromisoformat`, modelled by the abstract `parse` argument; a parse
failure is likewise caught and skips), and include the activity iff its start
instant is strictly after `now - timedelta(days=7)`. -/
def includedInWeek (parse : String → Option ℚ) (now : ℚ) (x : Activity) : Bool :=
  match x.start_date with
  | none => false
  | some s =>
    match parse s with
    | none => false
    | some start => decide (start > now - sevenDays)

/-- Accumulator of the `summarize_week` loop: `dur`, `dist`, `elev`, `cnt`. -/
structure SumState where
  dur : ℚ
  dist : ℚ
  elev : ℚ
  cnt : ℕ
deriving DecidableEq, Repr

/-- One iteration of the `summarize_week` loop body (src/app.py:171-183). -/
def sumStep (parse : String → Option ℚ) (now : ℚ) (st : SumState) (x : Activity) :
    SumState :=
  if includedInWeek parse now x then
    { dur := st.dur + getNumOr0 x.moving_time
      dist := st.dist + getNumOr0 x.distance
      elev := st.elev + getNumOr0 x.total_elevation_gain
      cnt := st.cnt + 1 }
  else
    st

/-- Embedding of `summarize_week` (src/app.py:159-190).  Timestamp parsing and
the wall clock are passed in as `parse` and `now`. -/
def summarize_week (parse : String → Option ℚ) (now : ℚ) (acts : List Activity) :
    WeekSummary :=
  let st := acts.foldl (sumStep parse now) ⟨0, 0, 0, 0⟩
  { workouts := st.cnt
    duration_s := ratTrunc st.dur
    dist_m := ratTrunc st.dist
    elev_m := ratTrunc st.elev }

/-- One entry of the in-memory `TOKENS` store: `access`, `refresh`,
`expires_at` (src/app.py:22, 113-117). -/
structure TokenRec where
  access : String
  refresh : String
  expires_at : ℚ
deriving DecidableEq, Repr

/-- JSON body of a successful refresh exchange: `access_token`,
optional `refresh_token`, `expires_at` (src/app.py:148-151). -/
structure RefreshData where
  access_token : String
  refresh_token : Option String
  expires_at : ℚ
deriving DecidableEq, Repr

/-- Errors raised by `get_access_token`: the `KeyError` for a missing athlete
and the `requests` exception raised by `rr.raise_for_status()` on a failed
refresh exchange (a transport error raises before that in the same way). -/
inductive TokenError where
  | keyError : TokenError
  | refreshFailed : TokenError
deriving DecidableEq, Repr

/-- The `TOKENS` map, `athlete_id -> record`. -/
def TokenStore : Type := ℤ → Option TokenRec

/-- Embedding of `get_access_token` (src/app.py:126-153).  The clock
(`time.time()`) is the `now` argument and the outcome the refresh POST would
have (`Except.error` for a transport error or a non-success response, via
`rr.raise_for_status()`) is the `refreshResp` argument.  Returns the result
(token or raised error), the resulting `TOKENS` store, and how many refresh
calls were made. -/
def get_access_token (tokens : TokenStore) (athlete_id : ℤ) (now : ℚ)
    (refreshResp : Except Unit RefreshData) :
    Except TokenError String × TokenStore × ℕ :=
  match tokens athlete_id with
  | none => (Except.error TokenError.keyError, tokens, 0)
  | some t =>
    if now > t.expires_at - 60 then
      match refreshResp with
      | Except.error _ => (Except.error TokenError.refreshFailed, tokens, 1)
      | Except.ok d =>
        let t' : TokenRec :=
          { access := d.access_token
            refresh := d.refresh_token.getD t.refresh
            expires_at := d.expires_at }
        (Except.ok t'.access, fun i => if i = athlete_id then some t' else tokens i, 1)
    else
      (Except.ok t.access, tokens, 0)

/-- The fields the webhook POST handler reads from the JSON body
(src/app.py:71-74); each may be absent. -/
structure WebhookPayload where
  object_type : Option String
  aspect_type : Option String
  owner_id : Option ℤ
  object_id : Option ℤ
deriving DecidableEq, Repr

/-- Observable outcome of the webhook POST handler: the `(owner_id, object_id)`
pairs passed to `background_tasks.add_task(process_activity, ...)`, and the
response body `{"ok": True}` (modelled by its single boolean field). -/
structure WebhookResult where
  scheduled : List (Option ℤ × Option ℤ)
  ok : Bool
deriving DecidableEq, Repr

/-- Embedding of the `webhook` POST handler (src/app.py:64-85): schedule one
background `process_activity(owner_id, object_id)` iff
`object_type == "activity"` and `aspect_type in ("create", "update")`; always
respond `{"ok": True}`. -/
def webhook (payload : WebhookPayload) : WebhookResult :=
  if payload.object_type = some "activity" ∧
      (payload.aspect_type = some "create" ∨ payload.aspect_type = some "update") then
    { scheduled := [(payload.owner_id, payload.object_id)], ok := true }
  else
    { scheduled := [], ok := true }

/-- The three query parameters the GET verification handler consults
(src/app.py:52-56): `hub.challenge`, `hub_challenge`, `challenge`. -/
structure VerifyQuery where
  hubDotChallenge : Option String
  hubUnderscoreChallenge : Option String
  challenge : Option String
deriving DecidableEq, Repr

/-- Python truthiness of `request.query_params.get(...)`: `None` and the empty
string are falsy, any other string is truthy. -/
def pyTruthyStr : Option String → Bool
  | none => false
  | some s => !(s == "")

/-- Python's `a or b` on optional strings: `a` if truthy, else `b`. -/
def pyOrStr (a b : Option String) : Option String :=
  if pyTruthyStr a then a else b

/-- Response of the GET verification handler: the value of the
`"hub.challenge"` field of the JSON body, and the HTTP status. -/
structure VerifyResponse where
  hubChallenge : String
  status : ℕ
deriving DecidableEq, Repr

/-- Embedding of `verify` (src/app.py:46-58):
`challenge = qp.get("hub.challenge") or qp.get("hub_challenge") or
qp.get("challenge")`, then respond `{"hub.challenge": challenge or ""}`
with status 200. -/
def verify (q : VerifyQuery) : VerifyResponse :=
  let challenge := pyOrStr q.hubDotChallenge (pyOrStr q.hubUnderscoreChallenge q.challenge)
  { hubChallenge := if pyTruthyStr challenge then challenge.getD "" else ""
    status := 200 }

/-- Python's `str.strip()`: drop leading and trailing whitespace. -/
def pyStrip (s : String) : String :=
  String.mk (((s.data.dropWhile Char.isWhitespace).reverse.dropWhile
    Char.isWhitespace).reverse)

/-- Parsed JSON body of the completion-service response as `ask_openai` reads
it: the HTTP status and the optional `output_text` field. -/
structure GptHttpResponse where
  status : ℕ
  output_text : Option String
deriving DecidableEq, Repr

/-- Fallback returned when `OPENAI_API_KEY` is unset (src/app.py:265). -/
def noKeyFallback : String := "Не удалось получить совет: не настроен ключ OpenAI."

/-- Fallback returned when the extracted `output_text` is empty (src/app.py:288). -/
def emptyFallback : String := "Модель вернула пустой ответ."

/-- Fallback returned from the `except` handler (src/app.py:292). -/
def errorFallback : String := "Не удалось получить совет (ошибка при обращении к OpenAI)."

/-- Embedding of `ask_openai` (src/app.py:262-292).  `apiKey` is
`OPENAI_API_KEY` (absent or a string; Python's `if not OPENAI_API_KEY` also
treats `""` as unset); `callResult` is what the POST to the completion
endpoint yields: `none` for a transport error / timeout (an exception), or
the status plus parsed body.  `r.raise_for_status()` raises for statuses in
[400, 600); the `except` catches every exception and substitutes the
fallback.  Returns the string result and the number of network calls made. -/
def ask_openai (apiKey : Option String) (callResult : Option GptHttpResponse)
    (_prompt : String) : String × ℕ :=
  if !(pyTruthyStr apiKey) then
    (noKeyFallback, 0)
  else
    match callResult with
    | none => (errorFallback, 1)
    | some r =>
      if 400 ≤ r.status ∧ r.status < 600 then
        (errorFallback, 1)
      else
        let txt := pyStrip (r.output_text.getD "")
        if txt = "" then (emptyFallback, 1) else (txt, 1)

/-- The successive steps of `process_activity` (src/app.py:320-402), in the
order the source executes them. -/
inductive Step where
  | getToken : Step
  | fetchActivity : Step
  | filterCheck : Step
  | fetchList : Step
  | summarize : Step
  | buildPrompt : Step
  | askAdvice : Step
  | sendTelegram : Step
deriving DecidableEq, Repr

/-- Outcome of an outbound HTTP GET as `process_activity` sees it: either an
exception (transport error / timeout) or a status code with a parsed body. -/
inductive HttpResult (α : Type) where
  | exn : HttpResult α
  | resp : ℕ → α → HttpResult α
deriving DecidableEq, Repr

/-- Observable outcome of one `process_activity` run: which steps executed
(in order) and, when the run got that far, the computed week summary. -/
structure ProcessOutcome where
  steps : List Step
  summary : Option WeekSummary
deriving DecidableEq, Repr

/-- Embedding of `process_activity` (src/app.py:320-402).  The outcomes of the
three outbound calls (token resolution, single-activity GET, activity-list
GET) are passed in; the body mirrors the source: a failed token resolution
returns; a transport error or non-200 status on the single-activity GET
returns; a rejected activity returns after the filter; a transport error or
non-200 status on the list GET falls back to `acts = []` and the run
continues through summary, prompt, advice and Telegram. -/
def process_activity (tokenResult : Except TokenError String)
    (actResult : HttpResult Activity) (listResult : HttpResult (List Activity))
    (parse : String → Option ℚ) (now : ℚ) : ProcessOutcome :=
  match tokenResult with
  | Except.error _ => { steps := [Step.getToken], summary := none }
  | Except.ok _ =>
    match actResult with
    | HttpResult.exn =>
      { steps := [Step.getToken, Step.fetchActivity], summary := none }
    | HttpResult.resp st activity =>
      if st ≠ 200 then
        { steps := [Step.getToken, Step.fetchActivity], summary := none }
      else if !(is_moving_activity activity) then
        { steps := [Step.getToken, Step.fetchActivity, Step.filterCheck], summary := none }
      else
        let acts : List Activity :=
          match listResult with
          | HttpResult.exn => []
          | HttpResult.resp st2 body => if st2 ≠ 200 then [] else body
        let ws := summarize_week parse now acts
        { steps := [Step.getToken, Step.fetchActivity, Step.filterCheck, Step.fetchList,
            Step.summarize, Step.buildPrompt, Step.askAdvice, Step.sendTelegram]
          summary := some ws }

/-- Turns a `null`-valued numeric JSON field into an absent one, leaving
absent fields and numeric values alone. -/
def nullToAbsent : Option PyNum → Option PyNum
  | some PyNum.null => none
  | v => v

/-- Applies `nullToAbsent` to the three numeric fields the summarizer reads. -/
def scrubNulls (x : Activity) : Activity :=
  { x with
      distance := nullToAbsent x.distance
      moving_time := nullToAbsent x.moving_time
      total_elevation_gain := nullToAbsent x.total_elevation_gain }

/-! ## Helper lemmas -/

theorem is_moving_activity_def (a : Activity) :
    is_moving_activity a =
      if getNumOr0 a.distance ≤ 0 ∧ getNumOr0 a.moving_time ≤ 0 then false
      else if getNumOr0 a.moving_time < 60 ∧ getNumOr0 a.distance < 200 then false
      else true := rfl

theorem getNumOr0_nullToAbsent (v : Option PyNum) :
    getNumOr0 (nullToAbsent v) = getNumOr0 v := by
  rcases v with - | v
  · rfl
  · cases v <;> rfl

theorem sumStep_pos (parse : String → Option ℚ) (now : ℚ) (st : SumState)
    (x : Activity) (h : includedInWeek parse now x = true) :
    sumStep parse now st x =
      { dur := st.dur + getNumOr0 x.moving_time
        dist := st.dist + getNumOr0 x.distance
        elev := st.elev + getNumOr0 x.total_elevation_gain
        cnt := st.cnt + 1 } := by
  simp [sumStep, h]

theorem sumStep_neg (parse : String → Option ℚ) (now : ℚ) (st : SumState)
    (x : Activity) (h : includedInWeek parse now x = false) :
    sumStep parse now st x = st := by
  simp [sumStep, h]

theorem foldl_sumStep (parse : String → Option ℚ) (now : ℚ) (acts : List Activity)
    (st : SumState) :
    acts.foldl (sumStep parse now) st =
      { dur := st.dur +
          ((acts.filter (includedInWeek parse now)).map fun x => getNumOr0 x.moving_time).sum
        dist := st.dist +
          ((acts.filter (includedInWeek parse now)).map fun x => getNumOr0 x.distance).sum
        elev := st.elev +
          ((acts.filter (includedInWeek parse now)).map
            fun x => getNumOr0 x.total_elevation_gain).sum
        cnt := st.cnt + (acts.filter (includedInWeek parse now)).length } := by
  induction acts generalizing st with
  | nil => simp
  | cons x xs ih =>
    rw [List.foldl_cons]
    rcases hx : includedInWeek parse now x with - | -
    · rw [sumStep_neg parse now st x hx, ih, List.filter_cons_of_neg (by simp [hx])]
    · rw [sumStep_pos parse now st x hx, ih, List.filter_cons_of_pos (by simp [hx])]
      simp only [List.map_cons, List.sum_cons, List.length_cons, SumState.mk.injEq]
      refine ⟨by ring, by ring, by ring, by ring⟩

theorem summarize_week_eq_filter (parse : String → Option ℚ) (now : ℚ)
    (acts : List Activity) :
    summarize_week parse now acts =
      { workouts := (acts.filter (includedInWeek parse now)).length
        duration_s := ratTrunc
          (((acts.filter (includedInWeek parse now)).map fun x => getNumOr0 x.moving_time).sum)
        dist_m := ratTrunc
          (((acts.filter (includedInWeek parse now)).map fun x => getNumOr0 x.distance).sum)
        elev_m := ratTrunc
          (((acts.filter (includedInWeek parse now)).map
            fun x => getNumOr0 x.total_elevation_gain).sum) } := by
  unfold summarize_week
  rw [foldl_sumStep]
  simp

theorem includedInWeek_scrubNulls (parse : String → Option ℚ) (now : ℚ) (x : Activity) :
    includedInWeek parse now (scrubNulls x) = includedInWeek parse now x := rfl

/-! ## Claim theorems -/

/-- C1: `is_moving_activity` returns `false` when the effective distance is
≤ 0 and the effective moving time is ≤ 0; returns `false` whenever
moving time < 60 and distance < 200; and returns `true` whenever
moving time ≥ 60 or distance ≥ 200 (so exactly 60 s or exactly 200 m is
accepted — the thresholds are strict `<`). -/
theorem is_moving_activity_spec (a : Activity) :
    (getNumOr0 a.distance ≤ 0 ∧ getNumOr0 a.moving_time ≤ 0 →
      is_moving_activity a = false) ∧
    (getNumOr0 a.moving_time < 60 ∧ getNumOr0 a.distance < 200 →
      is_moving_activity a = false) ∧
    (60 ≤ getNumOr0 a.moving_time ∨ 200 ≤ getNumOr0 a.distance →
      is_moving_activity a = true) := by
  rw [is_moving_activity_def]
  refine ⟨fun h => ?_, fun h => ?_, fun h => ?_⟩
  · rw [if_pos h]
  · by_cases h0 : getNumOr0 a.distance ≤ 0 ∧ getNumOr0 a.moving_time ≤ 0
    · rw [if_pos h0]
    · rw [if_neg h0, if_pos h]
  · have h0 : ¬(getNumOr0 a.distance ≤ 0 ∧ getNumOr0 a.moving_time ≤ 0) := by
      rcases h with h | h
      · exact fun hc => absurd hc.2 (by linarith)
      · exact fun hc => absurd hc.1 (by linarith)
    have h1 : ¬(getNumOr0 a.moving_time < 60 ∧ getNumOr0 a.distance < 200) := by
      rcases h with h | h
      · exact fun hc => absurd hc.1 (by linarith)
      · exact fun hc => absurd hc.2 (by linarith)
    rw [if_neg h0, if_neg h1]

/-- Concrete check of C1 at the boundary inputs: a fully empty activity is
rejected, a 59 s / 199 m activity is rejected, and a 60 s activity and a
200 m activity are both accepted. -/
theorem is_moving_activity_spec_checks :
    is_moving_activity ⟨some (PyNum.num 0), some (PyNum.num 0), none, none, none⟩ = false ∧
    is_moving_activity
      ⟨some (PyNum.num 199), some (PyNum.num 59), none, none, none⟩ = false ∧
    is_moving_activity ⟨some (PyNum.num 0), some (PyNum.num 60), none, none, none⟩ = true ∧
    is_moving_activity
      ⟨some (PyNum.num 200), some (PyNum.num 0), none, none, none⟩ = true :=
  ⟨(is_moving_activity_spec _).1 (by constructor <;> norm_num [getNumOr0]),
   (is_moving_activity_spec _).2.1 (by constructor <;> norm_num [getNumOr0]),
   (is_moving_activity_spec _).2.2 (Or.inl (by norm_num [getNumOr0])),
   (is_moving_activity_spec _).2.2 (Or.inr (by norm_num [getNumOr0]))⟩

/-- C2: with a stored record, `get_access_token` returns the stored access
token with the store unchanged and zero refresh calls when the expiry is at
least 60 s in the future, and performs exactly one refresh exchange — storing
the new access token, the returned refresh token (or keeping the old one when
none is returned) and the new expiry — when the expiry is within 60 s of now
or already past. -/
theorem get_access_token_spec (tokens : TokenStore) (athlete_id : ℤ) (now : ℚ)
    (t : TokenRec) (h : tokens athlete_id = some t) :
    (60 ≤ t.expires_at - now →
      ∀ refreshResp, get_access_token tokens athlete_id now refreshResp =
        (Except.ok t.access, tokens, 0)) ∧
    (t.expires_at - now < 60 →
      ∀ d, get_access_token tokens athlete_id now (Except.ok d) =
        (Except.ok d.access_token,
         fun i => if i = athlete_id then
             some { access := d.access_token
                    refresh := d.refresh_token.getD t.refresh
                    expires_at := d.expires_at }
           else tokens i,
         1)) := by
  constructor
  · intro hfresh refreshResp
    have hc : ¬ now > t.expires_at - 60 := by simp only [not_lt]; linarith
    simp [get_access_token, h, hc]
  · intro hstale d
    have hc : now > t.expires_at - 60 := by linarith
    simp [get_access_token, h, hc]

/-- Concrete check of C2: a record expiring 1000 s from now is returned as-is
with zero refresh calls; the same record consulted 941 s later (59 s before
expiry) triggers exactly one refresh that installs the new token data,
keeping the old refresh token because the exchange returned none. -/
theorem get_access_token_spec_checks :
    get_access_token
        (fun i => if i = 1 then some ⟨"acc", "ref", 1000⟩ else none) 1 0
        (Except.ok ⟨"newacc", none, 5000⟩) =
      (Except.ok "acc", fun i => if i = 1 then some ⟨"acc", "ref", 1000⟩ else none, 0) ∧
    get_access_token
        (fun i => if i = 1 then some ⟨"acc", "ref", 1000⟩ else none) 1 941
        (Except.ok ⟨"newacc", none, 5000⟩) =
      (Except.ok "newacc",
       fun i => if i = 1 then
           some { access := "newacc"
                  refresh := (Option.getD none "ref" : String)
                  expires_at := 5000 }
         else if i = 1 then some ⟨"acc", "ref", 1000⟩ else none,
       1) :=
  ⟨(get_access_token_spec _ 1 0 ⟨"acc", "ref", 1000⟩ (if_pos rfl)).1
      (by norm_num) (Except.ok ⟨"newacc", none, 5000⟩),
   (get_access_token_spec _ 1 941 ⟨"acc", "ref", 1000⟩ (if_pos rfl)).2
      (by norm_num) ⟨"newacc", none, 5000⟩⟩

/-- C3: with a stored record that needs refreshing, a failed refresh exchange
makes `get_access_token` raise (here: return the `refreshFailed` error) and
leaves the stored record exactly as it was. -/
theorem get_access_token_refresh_failure (tokens : TokenStore) (athlete_id : ℤ)
    (now : ℚ) (t : TokenRec) (h : tokens athlete_id = some t)
    (hstale : t.expires_at - now < 60) :
    get_access_token tokens athlete_id now (Except.error ()) =
      (Except.error TokenError.refreshFailed, tokens, 1) := by
  have hc : now > t.expires_at - 60 := by linarith
  simp [get_access_token, h, hc]

/-- Concrete check of C3: an expired record plus a failing refresh exchange
yields the error and the untouched store. -/
theorem get_access_token_refresh_failure_check :
    get_access_token
        (fun i => if i = 1 then some ⟨"acc", "ref", 1000⟩ else none) 1 1001
        (Except.error ()) =
      (Except.error TokenError.refreshFailed,
       fun i => if i = 1 then some ⟨"acc", "ref", 1000⟩ else none, 1) :=
  get_access_token_refresh_failure _ 1 1001 ⟨"acc", "ref", 1000⟩ (if_pos rfl)
    (by norm_num)

theorem summarize_week_nil (parse : String → Option ℚ) (now : ℚ) :
    summarize_week parse now [] =
      { workouts := 0, duration_s := 0, dist_m := 0, elev_m := 0 } := by
  simp [summarize_week, ratTrunc]

/-- C4: the week summarizer counts exactly the activities whose start
timestamp parses and lies strictly after `now` minus 7 days, each contributing
once to the count and to the (truncated) duration/distance/elevation sums;
an activity with a missing or unparseable start timestamp is skipped without
affecting the rest of the summary; and the empty list yields the all-zero
summary. -/
theorem summarize_week_spec (parse : String → Option ℚ) (now : ℚ)
    (acts : List Activity) :
    summarize_week parse now acts =
      { workouts := (acts.filter (includedInWeek parse now)).length
        duration_s := ratTrunc
          (((acts.filter (includedInWeek parse now)).map
            fun x => getNumOr0 x.moving_time).sum)
        dist_m := ratTrunc
          (((acts.filter (includedInWeek parse now)).map
            fun x => getNumOr0 x.distance).sum)
        elev_m := ratTrunc
          (((acts.filter (includedInWeek parse now)).map
            fun x => getNumOr0 x.total_elevation_gain).sum) } ∧
    (∀ x rest, (x.start_date = none ∨ ∃ s, x.start_date = some s ∧ parse s = none) →
      summarize_week parse now (x :: rest) = summarize_week parse now rest) ∧
    summarize_week parse now [] =
      { workouts := 0, duration_s := 0, dist_m := 0, elev_m := 0 } := by
  refine ⟨summarize_week_eq_filter parse now acts, ?_, summarize_week_nil parse now⟩
  intro x rest hx
  have hfalse : includedInWeek parse now x = false := by
    rcases hx with h | ⟨s, hs, hp⟩
    · simp [includedInWeek, h]
    · simp [includedInWeek, hs, hp]
  unfold summarize_week
  rw [List.foldl_cons, sumStep_neg parse now _ x hfalse]

/-- Concrete check of C4: an activity whose start timestamp does not parse is
skipped, so summarizing it alone equals summarizing the empty list. -/
theorem summarize_week_spec_check :
    summarize_week (fun s => if s = "good" then some (100 : ℚ) else none) 0
        [⟨some (PyNum.num 5), some (PyNum.num 7), none, some "bad", none⟩] =
      summarize_week (fun s => if s = "good" then some (100 : ℚ) else none) 0 [] :=
  (summarize_week_spec _ 0 []).2.1
    ⟨some (PyNum.num 5), some (PyNum.num 7), none, some "bad", none⟩ []
    (Or.inr ⟨"bad", rfl, by decide⟩)

/-- C10: the summarizer treats a numeric field that is present with a `null`
value exactly like an absent field (scrubbing `null`s to absent fields leaves
the summary unchanged), and each numeric field of the summary is the integer
truncation of the corresponding rational total. -/
theorem summarize_week_null_absent (parse : String → Option ℚ) (now : ℚ)
    (acts : List Activity) :
    summarize_week parse now (acts.map scrubNulls) = summarize_week parse now acts ∧
    (summarize_week parse now acts).duration_s =
      ratTrunc (((acts.filter (includedInWeek parse now)).map
        fun x => getNumOr0 x.moving_time).sum) ∧
    (summarize_week parse now acts).dist_m =
      ratTrunc (((acts.filter (includedInWeek parse now)).map
        fun x => getNumOr0 x.distance).sum) ∧
    (summarize_week parse now acts).elev_m =
      ratTrunc (((acts.filter (includedInWeek parse now)).map
        fun x => getNumOr0 x.total_elevation_gain).sum) := by
  refine ⟨?_, by rw [summarize_week_eq_filter], by rw [summarize_week_eq_filter],
    by rw [summarize_week_eq_filter]⟩
  rw [summarize_week_eq_filter, summarize_week_eq_filter]
  have hfilter : (acts.map scrubNulls).filter (includedInWeek parse now) =
      (acts.filter (includedInWeek parse now)).map scrubNulls := by
    rw [List.filter_map]
    congr 1
  have hdur : ((fun x => getNumOr0 x.moving_time) ∘ scrubNulls) =
      fun x : Activity => getNumOr0 x.moving_time := by
    funext x
    exact getNumOr0_nullToAbsent x.moving_time
  have hdist : ((fun x => getNumOr0 x.distance) ∘ scrubNulls) =
      fun x : Activity => getNumOr0 x.distance := by
    funext x
    exact getNumOr0_nullToAbsent x.distance
  have helev : ((fun x => getNumOr0 x.total_elevation_gain) ∘ scrubNulls) =
      fun x : Activity => getNumOr0 x.total_elevation_gain := by
    funext x
    exact getNumOr0_nullToAbsent x.total_elevation_gain
  rw [hfilter]
  simp only [List.map_map, List.length_map, hdur, hdist, helev]

/-- C5: the webhook POST handler schedules exactly one background pipeline run
for `(owner_id, object_id)` iff the body has `object_type == "activity"` and
`aspect_type` in `{"create", "update"}`, schedules none otherwise, and in all
cases responds `{"ok": true}` synchronously. -/
theorem webhook_spec (payload : WebhookPayload) :
    ((webhook payload).scheduled.length = 1 ↔
      payload.object_type = some "activity" ∧
        (payload.aspect_type = some "create" ∨ payload.aspect_type = some "update")) ∧
    (payload.object_type = some "activity" ∧
        (payload.aspect_type = some "create" ∨ payload.aspect_type = some "update") →
      (webhook payload).scheduled = [(payload.owner_id, payload.object_id)]) ∧
    (¬(payload.object_type = some "activity" ∧
        (payload.aspect_type = some "create" ∨ payload.aspect_type = some "update")) →
      (webhook payload).scheduled = []) ∧
    (webhook payload).ok = true := by
  by_cases hc : payload.object_type = some "activity" ∧
      (payload.aspect_type = some "create" ∨ payload.aspect_type = some "update")
  · simp [webhook, hc]
  · simp [webhook, hc]

/-- Concrete check of C5: an activity/create body schedules the single run
`(1, 99)` with an `ok` response; a segment_effort body schedules nothing and
still responds `ok`. -/
theorem webhook_spec_checks :
    (webhook ⟨some "activity", some "create", some 1, some 99⟩).scheduled =
      [(some 1, some 99)] ∧
    (webhook ⟨some "activity", some "create", some 1, some 99⟩).ok = true ∧
    (webhook ⟨some "segment_effort", some "create", some 1, some 99⟩).scheduled = [] ∧
    (webhook ⟨some "segment_effort", some "create", some 1, some 99⟩).ok = true :=
  ⟨(webhook_spec _).2.1 (by decide),
   (webhook_spec _).2.2.2,
   (webhook_spec _).2.2.1 (by decide),
   (webhook_spec _).2.2.2⟩

/-- C6: inside one pipeline run, a non-success status on the single-activity
fetch aborts the run right there (only the token and fetch steps execute, no
summary is produced), whereas a transport error or non-success status on the
recent-list fetch does not abort: the run continues through every remaining
step with an empty list, so the week summary degrades to the all-zero
summary. -/
theorem process_activity_spec (tok : String) (a : Activity)
    (listRes : HttpResult (List Activity)) (parse : String → Option ℚ) (now : ℚ) :
    (∀ st, st ≠ 200 →
      process_activity (Except.ok tok) (HttpResult.resp st a) listRes parse now =
        { steps := [Step.getToken, Step.fetchActivity], summary := none }) ∧
    (is_moving_activity a = true →
      (listRes = HttpResult.exn ∨
        ∃ st2 body, listRes = HttpResult.resp st2 body ∧ st2 ≠ 200) →
      process_activity (Except.ok tok) (HttpResult.resp 200 a) listRes parse now =
        { steps := [Step.getToken, Step.fetchActivity, Step.filterCheck, Step.fetchList,
            Step.summarize, Step.buildPrompt, Step.askAdvice, Step.sendTelegram]
          summary := some { workouts := 0, duration_s := 0, dist_m := 0, elev_m := 0 } }) := by
  constructor
  · intro st hst
    simp [process_activity, hst]
  · intro hsig hlist
    rcases hlist with h | ⟨st2, body, h, hne⟩
    · subst h
      simp [process_activity, hsig, summarize_week_nil]
    · subst h
      simp [process_activity, hsig, hne, summarize_week_nil]

/-- Concrete check of C6: with a significant activity, a 404 on the
single-activity fetch stops the run after two steps, while a 500 on the list
fetch lets the run finish with the all-zero summary. -/
theorem process_activity_spec_checks :
    process_activity (Except.ok "t")
        (HttpResult.resp 404 ⟨some (PyNum.num 1000), some (PyNum.num 600), none, none, none⟩)
        (HttpResult.resp 500 []) (fun _ => none) 0 =
      { steps := [Step.getToken, Step.fetchActivity], summary := none } ∧
    process_activity (Except.ok "t")
        (HttpResult.resp 200 ⟨some (PyNum.num 1000), some (PyNum.num 600), none, none, none⟩)
        (HttpResult.resp 500 []) (fun _ => none) 0 =
      { steps := [Step.getToken, Step.fetchActivity, Step.filterCheck, Step.fetchList,
          Step.summarize, Step.buildPrompt, Step.askAdvice, Step.sendTelegram]
        summary := some { workouts := 0, duration_s := 0, dist_m := 0, elev_m := 0 } } :=
  ⟨(process_activity_spec "t"
      ⟨some (PyNum.num 1000), some (PyNum.num 600), none, none, none⟩
      (HttpResult.resp 500 []) (fun _ => none) 0).1 404 (by decide),
   (process_activity_spec "t"
      ⟨some (PyNum.num 1000), some (PyNum.num 600), none, none, none⟩
      (HttpResult.resp 500 []) (fun _ => none) 0).2 (by decide)
      (Or.inr ⟨500, [], rfl, by decide⟩)⟩

/-- C7: `ask_openai` never raises past its boundary (the embedding is a total
function): with an unconfigured API key it returns the fixed fallback and
makes zero network calls; with a configured key it makes one call and returns
a fixed fallback string on a transport error, on a non-success HTTP status,
or on an empty extracted `output_text` field. -/
theorem ask_openai_spec (apiKey : Option String) (prompt : String) :
    ((apiKey = none ∨ apiKey = some "") →
      ∀ callResult, ask_openai apiKey callResult prompt = (noKeyFallback, 0)) ∧
    (pyTruthyStr apiKey = true →
      ask_openai apiKey none prompt = (errorFallback, 1)) ∧
    (pyTruthyStr apiKey = true → ∀ r : GptHttpResponse,
      400 ≤ r.status → r.status < 600 →
      ask_openai apiKey (some r) prompt = (errorFallback, 1)) ∧
    (pyTruthyStr apiKey = true → ∀ r : GptHttpResponse,
      ¬(400 ≤ r.status ∧ r.status < 600) → pyStrip (r.output_text.getD "") = "" →
      ask_openai apiKey (some r) prompt = (emptyFallback, 1)) := by
  refine ⟨?_, ?_, ?_, ?_⟩
  · intro hkey callResult
    have hfalse : pyTruthyStr apiKey = false := by
      rcases hkey with h | h <;> subst h <;> rfl
    simp [ask_openai, hfalse]
  · intro hkey
    simp [ask_openai, hkey]
  · intro hkey r h1 h2
    simp [ask_openai, hkey, h1, h2]
  · intro hkey r h1 h2
    simp [ask_openai, hkey, h1, h2]

/-- Concrete check of C7: no key → fallback with zero calls; with a key, a
transport error, a 500 status, and an absent `output_text` each produce their
fixed fallback after one call. -/
theorem ask_openai_spec_checks :
    ask_openai none none "p" = (noKeyFallback, 0) ∧
    ask_openai (some "k") none "p" = (errorFallback, 1) ∧
    ask_openai (some "k") (some ⟨500, some "boom"⟩) "p" = (errorFallback, 1) ∧
    ask_openai (some "k") (some ⟨200, none⟩) "p" = (emptyFallback, 1) :=
  ⟨(ask_openai_spec none "p").1 (Or.inl rfl) none,
   (ask_openai_spec (some "k") "p").2.1 (by decide),
   (ask_openai_spec (some "k") "p").2.2.1 (by decide) ⟨500, some "boom"⟩
      (by norm_num) (by norm_num),
   (ask_openai_spec (some "k") "p").2.2.2 (by decide) ⟨200, none⟩
      (by norm_num) (by decide)⟩

theorem pyTruthyStr_eq_false (s : Option String) :
    pyTruthyStr s = false ↔ (s = none ∨ s = some "") := by
  rcases s with - | s
  · simp [pyTruthyStr]
  · simp [pyTruthyStr]

theorem pyTruthyStr_getD (s : Option String) (h : pyTruthyStr s = true) :
    s.getD "" ≠ "" := by
  rcases s with - | s
  · simp [pyTruthyStr] at h
  · simp [pyTruthyStr] at h
    simpa using h

theorem verify_eq (q : VerifyQuery) :
    verify q =
      { hubChallenge :=
          if pyTruthyStr q.hubDotChallenge then q.hubDotChallenge.getD ""
          else if pyTruthyStr q.hubUnderscoreChallenge then
            q.hubUnderscoreChallenge.getD ""
          else if pyTruthyStr q.challenge then q.challenge.getD ""
          else ""
        status := 200 } := by
  unfold verify pyOrStr
  by_cases t1 : pyTruthyStr q.hubDotChallenge <;>
    by_cases t2 : pyTruthyStr q.hubUnderscoreChallenge <;>
    by_cases t3 : pyTruthyStr q.challenge <;>
    simp [t1, t2, t3]

/-- C8 counterexample: a GET whose query string has no `hub.challenge`
parameter but carries `hub_challenge=abc` is answered with
`{"hub.challenge": "abc"}`, not with the empty string the claim requires when
`hub.challenge` is absent. -/
theorem verify_absent_counterexample :
    (⟨none, some "abc", none⟩ : VerifyQuery).hubDotChallenge = none ∧
    verify ⟨none, some "abc", none⟩ = { hubChallenge := "abc", status := 200 } ∧
    ("abc" : String) ≠ "" := by decide

/-- C8 (amended): if `hub.challenge` is present with a non-empty value `v`,
the response is `{"hub.challenge": v}` with status 200; if none of
`hub.challenge`, `hub_challenge`, `challenge` is present with a non-empty
value, the response is `{"hub.challenge": ""}`. -/
theorem verify_spec_amended (q : VerifyQuery) :
    (∀ v, q.hubDotChallenge = some v → v ≠ "" →
      verify q = { hubChallenge := v, status := 200 }) ∧
    ((q.hubDotChallenge = none ∨ q.hubDotChallenge = some "") →
      (q.hubUnderscoreChallenge = none ∨ q.hubUnderscoreChallenge = some "") →
      (q.challenge = none ∨ q.challenge = some "") →
      verify q = { hubChallenge := "", status := 200 }) := by
  constructor
  · intro v hv hne
    have ht : pyTruthyStr q.hubDotChallenge = true := by
      rw [hv]
      simp [pyTruthyStr, hne]
    rw [verify_eq, ht, hv]
    simp
  · intro h1 h2 h3
    have t1 : pyTruthyStr q.hubDotChallenge = false := (pyTruthyStr_eq_false _).mpr h1
    have t2 : pyTruthyStr q.hubUnderscoreChallenge = false :=
      (pyTruthyStr_eq_false _).mpr h2
    have t3 : pyTruthyStr q.challenge = false := (pyTruthyStr_eq_false _).mpr h3
    rw [verify_eq, t1, t2, t3]
    simp

/-- Concrete check of amended C8: `hub.challenge=abc` is echoed; a query with
only an empty `hub_challenge` gets the empty-string response. -/
theorem verify_spec_amended_checks :
    verify ⟨some "abc", none, none⟩ = { hubChallenge := "abc", status := 200 } ∧
    verify ⟨none, some "", none⟩ = { hubChallenge := "", status := 200 } :=
  ⟨(verify_spec_amended ⟨some "abc", none, none⟩).1 "abc" rfl (by decide),
   (verify_spec_amended ⟨none, some "", none⟩).2 (Or.inl rfl) (Or.inr rfl)
      (Or.inl rfl)⟩

/-- C9 counterexample: the query `hub_challenge=` (the parameter is present
with an empty value, the other two absent) is answered with the empty-string
response even though one of the three parameters is present — refuting the
claim that the empty-string response is returned only when none of the three
is present. -/
theorem verify_alternate_counterexample :
    (⟨none, some "", none⟩ : VerifyQuery).hubUnderscoreChallenge ≠ none ∧
    verify ⟨none, some "", none⟩ = { hubChallenge := "", status := 200 } := by
  decide

/-- C9 (amended): when `hub.challenge` is absent or empty, the handler echoes
`hub_challenge` when that has a non-empty value, and failing that `challenge`
when that has a non-empty value; and the empty-string response is returned
exactly when none of the three parameters is present with a non-empty value. -/
theorem verify_alternate_spec_amended (q : VerifyQuery) :
    ((q.hubDotChallenge = none ∨ q.hubDotChallenge = some "") →
      (∀ v, q.hubUnderscoreChallenge = some v → v ≠ "" →
        verify q = { hubChallenge := v, status := 200 }) ∧
      ((q.hubUnderscoreChallenge = none ∨ q.hubUnderscoreChallenge = some "") →
        ∀ v, q.challenge = some v → v ≠ "" →
        verify q = { hubChallenge := v, status := 200 })) ∧
    ((verify q).hubChallenge = "" ↔
      (q.hubDotChallenge = none ∨ q.hubDotChallenge = some "") ∧
      (q.hubUnderscoreChallenge = none ∨ q.hubUnderscoreChallenge = some "") ∧
      (q.challenge = none ∨ q.challenge = some "")) := by
  constructor
  · intro h1
    have t1 : pyTruthyStr q.hubDotChallenge = false := (pyTruthyStr_eq_false _).mpr h1
    constructor
    · intro v hv hne
      have t2 : pyTruthyStr q.hubUnderscoreChallenge = true := by
        rw [hv]
        simp [pyTruthyStr, hne]
      rw [verify_eq, t1, t2, hv]
      simp
    · intro h2 v hv hne
      have t2 : pyTruthyStr q.hubUnderscoreChallenge = false :=
        (pyTruthyStr_eq_false _).mpr h2
      have t3 : pyTruthyStr q.challenge = true := by
        rw [hv]
        simp [pyTruthyStr, hne]
      rw [verify_eq, t1, t2, t3, hv]
      simp
  · rw [verify_eq]
    by_cases t1 : pyTruthyStr q.hubDotChallenge
    · simp only [t1, if_true]
      constructor
      · intro h
        exact absurd h (pyTruthyStr_getD _ t1)
      · rintro ⟨h1, -, -⟩
        rw [(pyTruthyStr_eq_false _).mpr h1] at t1
        cases t1
    · by_cases t2 : pyTruthyStr q.hubUnderscoreChallenge
      · simp only [t1, t2, Bool.false_eq_true, if_false, if_true]
        constructor
        · intro h
          exact absurd h (pyTruthyStr_getD _ t2)
        · rintro ⟨-, h2, -⟩
          rw [(pyTruthyStr_eq_false _).mpr h2] at t2
          cases t2
      · by_cases t3 : pyTruthyStr q.challenge
        · simp only [t1, t2, t3, Bool.false_eq_true, if_false, if_true]
          constructor
          · intro h
            exact absurd h (pyTruthyStr_getD _ t3)
          · rintro ⟨-, -, h3⟩
            rw [(pyTruthyStr_eq_false _).mpr h3] at t3
            cases t3
        · simp only [t1, t2, t3, Bool.false_eq_true, if_false]
          have e1 := (pyTruthyStr_eq_false q.hubDotChallenge).mp (by simpa using t1)
          have e2 := (pyTruthyStr_eq_false q.hubUnderscoreChallenge).mp (by simpa using t2)
          have e3 := (pyTruthyStr_eq_false q.challenge).mp (by simpa using t3)
          simp [e1, e2, e3]

/-- Concrete check of amended C9: with `hub.challenge` absent, a non-empty
`hub_challenge` and a non-empty `challenge` are echoed in that order of
preference. -/
theorem verify_alternate_spec_amended_checks :
    verify ⟨none, some "xyz", none⟩ = { hubChallenge := "xyz", status := 200 } ∧
    verify ⟨none, some "", some "zzz"⟩ = { hubChallenge := "zzz", status := 200 } :=
  ⟨((verify_alternate_spec_amended ⟨none, some "xyz", none⟩).1 (Or.inl rfl)).1
      "xyz" rfl (by decide),
   ((verify_alternate_spec_amended ⟨none, some "", some "zzz"⟩).1 (Or.inl rfl)).2
      (Or.inr rfl) "zzz" rfl (by decide)⟩

end GarminBot
